import Mathlib

/-!
Shallow embedding of the encoding classifier in `src/encoding.c` from
koldinger/MusicUtils, together with proofs checking the design document's
claims about it.

The C function `checkEncoding` reads bytes from a stream, keeps four pieces
of running state (`utf8Length`, `validLatin1`, `validUTF8`, `nonASCII`), and
prints one of `ASCII`, `UTF8`, `Latin1`, `Unknown` at end of stream.  We
model the per-byte loop body as `stepByte`, the whole loop as a left fold
`runBytes`, and the final printing decision as `verdict`; `checkEncoding`
composes them.  Bytes are modelled as `Nat`, masked with `&&& 0xff` exactly
where the C code masks with `& 0xff`.
-/

set_option maxRecDepth 4096

namespace MusicUtils

/-- Bit mask for a UTF-8 continuation byte test, `// 10xxxxxx` (encoding.c line 5). -/
def mask_UTF8trailer : Nat := 0xc0

/-- Expected bits for a UTF-8 continuation byte (encoding.c line 6). -/
def bits_UTF8trailer : Nat := 0x80

/-- Bit mask for the 2-byte-leader test, `// 110xxxxx` (encoding.c line 9). -/
def mask_UTF8leader1 : Nat := 0xe0

/-- Expected bits for the 2-byte-leader test (encoding.c line 10). -/
def bits_UTF8leader1 : Nat := 0xc0

/-- Bit mask for the 3-byte-leader test (encoding.c line 13).  The source
comment says `1110xxxx`, but the constant is `0xef`, not `0xf0`. -/
def mask_UTF8leader2 : Nat := 0xef

/-- Expected bits for the 3-byte-leader test (encoding.c line 14). -/
def bits_UTF8leader2 : Nat := 0xe0

/-- Bit mask for the 4-byte-leader test (encoding.c line 17). -/
def mask_UTF8leader3 : Nat := 0xf8

/-- Expected bits for the 4-byte-leader test (encoding.c line 18). -/
def bits_UTF8leader3 : Nat := 0xf0

/-- The four local variables of `checkEncoding` (encoding.c lines 23-26).
`utf8Length` is the number of continuation bytes still expected; the two
validity flags and the non-ASCII flag are the C `int`s used as booleans. -/
structure State where
  utf8Length : Nat
  validLatin1 : Bool
  validUTF8 : Bool
  nonASCII : Bool
deriving DecidableEq

/-- Initial state of one classification run (encoding.c lines 23-26). -/
def initState : State :=
  { utf8Length := 0, validLatin1 := true, validUTF8 := true, nonASCII := false }

/-- Body of the `while` loop of `checkEncoding` for one byte
(encoding.c lines 29-51), as a pure state transformer. -/
def stepByte (s : State) (b : Nat) : State :=
  let a := b &&& 0xff
  if a &&& 0x80 = 0 then
    if s.utf8Length ≠ 0 then { s with validUTF8 := false, utf8Length := 0 } else s
  else
    let s1 := { s with nonASCII := true }
    let s2 := if a < 0xa0 then { s1 with validLatin1 := false } else s1
    if a &&& mask_UTF8trailer = bits_UTF8trailer then
      if s2.utf8Length = 0 then { s2 with validUTF8 := false }
      else { s2 with utf8Length := s2.utf8Length - 1 }
    else if a &&& mask_UTF8leader1 = bits_UTF8leader1 then
      if s2.utf8Length ≠ 0 then { s2 with validUTF8 := false }
      else { s2 with utf8Length := 1 }
    else if a &&& mask_UTF8leader2 = bits_UTF8leader2 then
      if s2.utf8Length ≠ 0 then { s2 with validUTF8 := false }
      else { s2 with utf8Length := 2 }
    else if a &&& mask_UTF8leader3 = bits_UTF8leader3 then
      if s2.utf8Length ≠ 0 then { s2 with validUTF8 := false }
      else { s2 with utf8Length := 3 }
    else
      { s2 with validUTF8 := false }

/-- The whole `while` loop: fold `stepByte` over the byte list. -/
def runBytes (s : State) (bs : List Nat) : State := bs.foldl stepByte s

/-- The four labels `checkEncoding` can print (encoding.c lines 52-58). -/
inductive Verdict
  | ASCII
  | UTF8
  | Latin1
  | Unknown
deriving DecidableEq

/-- End-of-stream resolution of `checkEncoding` (encoding.c lines 52-58):
which label is printed for a given final state. -/
def verdict (s : State) : Verdict :=
  if s.nonASCII = false then .ASCII
  else if s.validUTF8 then .UTF8
  else if s.validLatin1 then .Latin1
  else .Unknown

/-- `checkEncoding` on a finite byte stream: run the loop from the fresh
state, then resolve the verdict. -/
def checkEncoding (bs : List Nat) : Verdict := verdict (runBytes initState bs)

/-! ### Basic lemmas about the step function and the fold -/

/-- Splitting a run at a list append (the loop processes `xs` then `ys`). -/
lemma runBytes_append (s : State) (xs ys : List Nat) :
    runBytes s (xs ++ ys) = runBytes (runBytes s xs) ys := by
  simp [runBytes, List.foldl_append]

/-- Splitting a run at its first byte. -/
lemma runBytes_cons (s : State) (b : Nat) (ys : List Nat) :
    runBytes s (b :: ys) = runBytes (stepByte s b) ys := rfl

/-- The loop body never assigns `validUTF8 = 1`: a false flag stays false. -/
lemma stepByte_validUTF8_mono (s : State) (b : Nat) (h : s.validUTF8 = false) :
    (stepByte s b).validUTF8 = false := by
  unfold stepByte
  dsimp only
  split_ifs <;> simp_all

/-- The loop body never assigns `validLatin1 = 1`: a false flag stays false. -/
lemma stepByte_validLatin1_mono (s : State) (b : Nat) (h : s.validLatin1 = false) :
    (stepByte s b).validLatin1 = false := by
  unfold stepByte
  dsimp only
  split_ifs <;> simp_all

/-- The loop never restores `validUTF8` over any list of further bytes. -/
lemma runBytes_validUTF8_mono (s : State) (bs : List Nat) (h : s.validUTF8 = false) :
    (runBytes s bs).validUTF8 = false := by
  induction bs generalizing s with
  | nil => exact h
  | cons b ys ih => exact ih (stepByte s b) (stepByte_validUTF8_mono s b h)

/-- The loop never restores `validLatin1` over any list of further bytes. -/
lemma runBytes_validLatin1_mono (s : State) (bs : List Nat) (h : s.validLatin1 = false) :
    (runBytes s bs).validLatin1 = false := by
  induction bs generalizing s with
  | nil => exact h
  | cons b ys ih => exact ih (stepByte s b) (stepByte_validLatin1_mono s b h)

/-- The printed label is `UTF8` exactly when the non-ASCII flag is set and
`validUTF8` is still true; `utf8Length` plays no part in the resolution. -/
lemma verdict_eq_UTF8_iff (s : State) :
    verdict s = Verdict.UTF8 ↔ (s.nonASCII = true ∧ s.validUTF8 = true) := by
  unfold verdict
  split_ifs <;> simp_all

/-- Values below 0x80 are unchanged by the `& 0xff` mask and have a clear
high bit, so they take the ASCII branch of the loop. -/
lemma low_byte_masks : ∀ x : Fin 128, x.val &&& 0xff = x.val ∧ x.val &&& 0x80 = 0 := by
  decide

/-- An 8-bit value is unchanged by the `& 0xff` mask. -/
lemma byte_mask_id : ∀ x : Fin 256, x.val &&& 0xff = x.val := by
  decide

/-- For an 8-bit value, the `& 0x80` test is the `< 0x80` range test. -/
lemma high_bit_test : ∀ x : Fin 256, (x.val &&& 0x80 = 0 ↔ x.val < 0x80) := by
  decide

/-- An ASCII-range byte leaves the state unchanged when no continuation
bytes are pending. -/
lemma stepByte_ascii (s : State) (b : Nat) (hb : b < 0x80) (hlen : s.utf8Length = 0) :
    stepByte s b = s := by
  obtain ⟨hff, h80⟩ := low_byte_masks ⟨b, hb⟩
  unfold stepByte
  dsimp only
  rw [hff, h80]
  simp [hlen]

/-- One loop iteration keeps the pending-continuation count at most 3. -/
lemma stepByte_utf8Length_le (s : State) (b : Nat) (h : s.utf8Length ≤ 3) :
    (stepByte s b).utf8Length ≤ 3 := by
  unfold stepByte
  dsimp only
  split_ifs <;> simp_all <;> omega

/-- The whole loop keeps the pending-continuation count at most 3. -/
lemma runBytes_utf8Length_le (s : State) (bs : List Nat) (h : s.utf8Length ≤ 3) :
    (runBytes s bs).utf8Length ≤ 3 := by
  induction bs generalizing s with
  | nil => exact h
  | cons b ys ih => exact ih (stepByte s b) (stepByte_utf8Length_le s b h)

/-- One loop iteration preserves the invariant that an unset non-ASCII flag
forces both validity flags true and a zero pending count. -/
lemma stepByte_pure_inv (s : State) (b : Nat)
    (h : s.nonASCII = false →
      s.validUTF8 = true ∧ s.validLatin1 = true ∧ s.utf8Length = 0) :
    (stepByte s b).nonASCII = false →
      (stepByte s b).validUTF8 = true ∧ (stepByte s b).validLatin1 = true ∧
        (stepByte s b).utf8Length = 0 := by
  unfold stepByte
  dsimp only
  split_ifs <;> simp_all

/-- The whole loop preserves the invariant that an unset non-ASCII flag
forces both validity flags true and a zero pending count. -/
lemma runBytes_pure_inv (s : State) (bs : List Nat)
    (h : s.nonASCII = false →
      s.validUTF8 = true ∧ s.validLatin1 = true ∧ s.utf8Length = 0) :
    (runBytes s bs).nonASCII = false →
      (runBytes s bs).validUTF8 = true ∧ (runBytes s bs).validLatin1 = true ∧
        (runBytes s bs).utf8Length = 0 := by
  induction bs generalizing s with
  | nil => exact h
  | cons b ys ih => exact ih (stepByte s b) (stepByte_pure_inv s b h)

/-- A byte that is not a continuation byte, arriving while continuation
bytes are pending, sets `validUTF8` to false (every branch of the loop body
other than the continuation branch does so when `utf8Length` is nonzero). -/
lemma stepByte_truncation (s : State) (b : Nat) (hp : s.utf8Length ≠ 0)
    (hb : (b &&& 0xff) &&& mask_UTF8trailer ≠ bits_UTF8trailer) :
    (stepByte s b).validUTF8 = false := by
  unfold stepByte
  dsimp only
  split_ifs <;> simp_all

/-- Running the loop over a stream of ASCII-range bytes leaves the fresh
state unchanged. -/
lemma runBytes_ascii_id :
    ∀ bs : List Nat, (∀ b ∈ bs, b < 0x80) → runBytes initState bs = initState := by
  intro bs
  induction bs with
  | nil => intro _; rfl
  | cons b ys ih =>
    intro h
    rw [runBytes_cons, stepByte_ascii initState b (h b (List.mem_cons_self b ys)) rfl]
    exact ih fun x hx => h x (List.mem_cons_of_mem b hx)

/-! ### Sanity checks against the design document's concrete scenarios -/

example : checkEncoding [] = .ASCII := by decide
example : checkEncoding [0x48, 0x69] = .ASCII := by decide
example : checkEncoding [0xC3, 0xA9] = .UTF8 := by decide
example : checkEncoding [0xE9] = .Latin1 := by decide
example : checkEncoding [0x80] = .Unknown := by decide
example : checkEncoding [0xC3, 0x28] = .Latin1 := by decide

/-! ### Claim theorems -/

/-- C1, counterexample.  The claim says the verdict for the dangling-leader
stream `[0xC3]` is `Latin1` because `utf8_pending_trailers` is checked at
resolution time.  In the code the resolution (encoding.c line 55) tests only
`validUTF8`, so `[0xC3]` is printed `UTF8` even though a continuation byte
is still pending. -/
theorem dangling_leader_yields_utf8 :
    checkEncoding [0xC3] = Verdict.UTF8 ∧ (runBytes initState [0xC3]).utf8Length ≠ 0 := by
  decide

/-- C1, amended.  At end of stream the verdict is `UTF8` exactly when the
non-ASCII flag is set and `validUTF8` is still true; the pending-trailer
count takes no part in the resolution, and in particular the dangling
leader `[0xC3]` yields `UTF8`. -/
theorem verdict_utf8_iff_flags :
    (∀ bs : List Nat, checkEncoding bs = Verdict.UTF8 ↔
      ((runBytes initState bs).nonASCII = true ∧ (runBytes initState bs).validUTF8 = true)) ∧
    checkEncoding [0xC3] = Verdict.UTF8 :=
  ⟨fun bs => verdict_eq_UTF8_iff (runBytes initState bs), by decide⟩

/-- C2.  The claim says every byte 0xE0–0xEF with no pending continuation
bytes sets the pending count to 2 and leaves `validUTF8` unchanged.  In the
code `mask_UTF8leader2` is `0xef` (its comment says `1110xxxx`, which needs
mask `0xf0`), so the byte 0xE1 matches no template: starting from the fresh
state (pending 0, `validUTF8` true), it sets `validUTF8` to false and
leaves the pending count 0. -/
theorem byte_e1_invalidates_utf8 :
    initState.utf8Length = 0 ∧ initState.validUTF8 = true ∧
    (stepByte initState 0xE1).validUTF8 = false ∧
    (stepByte initState 0xE1).utf8Length = 0 := by
  decide

/-- C3.  The claim says every well-formed UTF-8 stream with a non-ASCII
byte is classified `UTF8`.  The well-formed three-byte sequence
`[0xE1, 0x80, 0x80]` (U+1040's neighbourhood, leader plus exactly two
continuation bytes) is classified `Unknown` by the code, because 0xE1 fails
the mistyped 3-byte-leader mask `0xef`. -/
theorem wellformed_e1_sequence_unknown :
    checkEncoding [0xE1, 0x80, 0x80] = Verdict.Unknown := by
  decide

/-- C4.  The claim says every byte 0xF0–0xF7 with no pending continuation
bytes sets the pending count to 3, and that the four templates are mutually
exclusive.  In the code the byte 0xF0 satisfies both the 3-byte-leader test
(mask `0xef`) and the 4-byte-leader test (mask `0xf8`); the 3-byte branch
comes first, so the pending count becomes 2, not 3. -/
theorem byte_f0_sets_pending_two :
    initState.utf8Length = 0 ∧
    (stepByte initState 0xF0).utf8Length = 2 ∧
    0xF0 &&& mask_UTF8leader2 = bits_UTF8leader2 ∧
    0xF0 &&& mask_UTF8leader3 = bits_UTF8leader3 := by
  decide

/-- C5, counterexample.  The claim says any stream containing an overlong
or truncated sequence is never classified `UTF8`.  The code tracks no
overlong encodings at all, so the overlong `[0xC0, 0x80]` is classified
`UTF8`; and a sequence truncated by end of stream, `[0xC3]`, is also
classified `UTF8` because the resolution skips the pending count. -/
theorem overlong_and_dangling_yield_utf8 :
    checkEncoding [0xC0, 0x80] = Verdict.UTF8 ∧ checkEncoding [0xC3] = Verdict.UTF8 := by
  decide

/-- C5, amended.  A sequence cut short in mid-stream does disqualify UTF-8
permanently: whenever the pending-continuation count is nonzero and the
next byte is not a continuation byte, `validUTF8` goes false, never
recovers, and the verdict cannot be `UTF8`.  (Overlong sequences and
sequences truncated by end of stream are not detected.) -/
theorem midstream_truncation_never_utf8 (xs ys : List Nat) (b : Nat)
    (hp : (runBytes initState xs).utf8Length ≠ 0)
    (hb : (b &&& 0xff) &&& mask_UTF8trailer ≠ bits_UTF8trailer) :
    checkEncoding (xs ++ b :: ys) ≠ Verdict.UTF8 := by
  intro hcontra
  have h1 : (runBytes initState (xs ++ b :: ys)).validUTF8 = false := by
    rw [runBytes_append, runBytes_cons]
    exact runBytes_validUTF8_mono _ ys (stepByte_truncation _ b hp hb)
  have h2 := (verdict_eq_UTF8_iff (runBytes initState (xs ++ b :: ys))).mp hcontra
  rw [h1] at h2
  exact Bool.false_ne_true h2.2

/-- C5, witness for the amended theorem: after `[0xC3]` one continuation
byte is pending, `0x41` is not a continuation byte, and the stream
`[0xC3, 0x41]` is indeed not classified `UTF8`. -/
theorem midstream_truncation_never_utf8_witness :
    (runBytes initState [0xC3]).utf8Length ≠ 0 ∧
    (0x41 &&& 0xff) &&& mask_UTF8trailer ≠ bits_UTF8trailer ∧
    checkEncoding ([0xC3] ++ 0x41 :: []) ≠ Verdict.UTF8 :=
  ⟨by decide, by decide,
    midstream_truncation_never_utf8 [0xC3] [] 0x41 (by decide) (by decide)⟩

/-- C6.  A stream of bytes all below 0x80 (the empty stream included) never
sets the non-ASCII flag, so the verdict is `ASCII`. -/
theorem ascii_only_yields_ascii (bs : List Nat) (h : ∀ b ∈ bs, b < 0x80) :
    checkEncoding bs = Verdict.ASCII := by
  unfold checkEncoding
  rw [runBytes_ascii_id bs h]
  rfl

/-- C6, witness: the two-byte ASCII stream `"Hi"` is classified `ASCII`. -/
theorem ascii_only_yields_ascii_witness :
    (∀ b ∈ [0x48, 0x69], b < 0x80) ∧ checkEncoding [0x48, 0x69] = Verdict.ASCII :=
  ⟨by decide, ascii_only_yields_ascii [0x48, 0x69] (by decide)⟩

/-- C7.  For every 8-bit byte and every state, one loop iteration leaves
`validLatin1` false exactly for bytes in the C1-control range 0x80–0x9F,
and otherwise leaves it unchanged. -/
theorem latin1_update_rule (s : State) (b : Nat) (hb : b < 256) :
    (stepByte s b).validLatin1 =
      if 0x80 ≤ b ∧ b < 0xa0 then false else s.validLatin1 := by
  have hff : b &&& 0xff = b := byte_mask_id ⟨b, hb⟩
  have h80 : b &&& 0x80 = 0 ↔ b < 0x80 := high_bit_test ⟨b, hb⟩
  unfold stepByte
  dsimp only
  rw [hff]
  split_ifs <;> simp_all <;> omega

/-- C7, witness: the C1-control byte 0x85 flips `validLatin1` as the rule
states, at the fresh state. -/
theorem latin1_update_rule_witness :
    (0x85 : Nat) < 256 ∧
    ((stepByte initState 0x85).validLatin1 =
      if (0x80 : Nat) ≤ 0x85 ∧ (0x85 : Nat) < 0xa0 then false else initState.validLatin1) :=
  ⟨by decide, latin1_update_rule initState 0x85 (by decide)⟩

/-- C8.  Both validity flags start true, and each is monotone: once false
after some prefix of the stream, it is still false after processing any
further suffix. -/
theorem validity_flags_monotone :
    initState.validUTF8 = true ∧ initState.validLatin1 = true ∧
    ∀ xs ys : List Nat,
      ((runBytes initState xs).validUTF8 = false →
        (runBytes initState (xs ++ ys)).validUTF8 = false) ∧
      ((runBytes initState xs).validLatin1 = false →
        (runBytes initState (xs ++ ys)).validLatin1 = false) := by
  refine ⟨rfl, rfl, fun xs ys => ⟨fun h => ?_, fun h => ?_⟩⟩
  · rw [runBytes_append]
    exact runBytes_validUTF8_mono _ ys h
  · rw [runBytes_append]
    exact runBytes_validLatin1_mono _ ys h

/-- C8, witness: after the prefix `[0x80]` both flags are false, and they
stay false after the suffix `[0x41]`. -/
theorem validity_flags_monotone_witness :
    (runBytes initState [0x80]).validUTF8 = false ∧
    (runBytes initState [0x80]).validLatin1 = false ∧
    (runBytes initState ([0x80] ++ [0x41])).validUTF8 = false ∧
    (runBytes initState ([0x80] ++ [0x41])).validLatin1 = false :=
  ⟨by decide, by decide,
    (validity_flags_monotone.2.2 [0x80] [0x41]).1 (by decide),
    (validity_flags_monotone.2.2 [0x80] [0x41]).2 (by decide)⟩

/-- C9.  After processing any stream (hence after every prefix of any
stream, a prefix being itself a stream of the same fold), the
pending-continuation count lies between 0 and 3 inclusive. -/
theorem pending_at_most_three (bs : List Nat) :
    0 ≤ (runBytes initState bs).utf8Length ∧ (runBytes initState bs).utf8Length ≤ 3 :=
  ⟨Nat.zero_le _, runBytes_utf8Length_le initState bs (by decide)⟩

/-- C10.  If the non-ASCII flag is still false after processing a stream,
then both validity flags are still true and no continuation bytes are
pending, so an `ASCII` verdict always coincides with a fully valid state. -/
theorem no_nonascii_state_pure (bs : List Nat)
    (h : (runBytes initState bs).nonASCII = false) :
    (runBytes initState bs).validUTF8 = true ∧
    (runBytes initState bs).validLatin1 = true ∧
    (runBytes initState bs).utf8Length = 0 :=
  runBytes_pure_inv initState bs (fun _ => ⟨rfl, rfl, rfl⟩) h

/-- C10, witness: the ASCII stream `[0x41]` leaves the non-ASCII flag
false, both validity flags true and no pending continuation bytes. -/
theorem no_nonascii_state_pure_witness :
    (runBytes initState [0x41]).nonASCII = false ∧
    ((runBytes initState [0x41]).validUTF8 = true ∧
      (runBytes initState [0x41]).validLatin1 = true ∧
      (runBytes initState [0x41]).utf8Length = 0) :=
  ⟨by decide, no_nonascii_state_pure [0x41] (by decide)⟩

end MusicUtils
